import Mathlib

/-!
Shallow embedding of `src/main.py` (a grocery-shopping chat agent).

The locally authored logic consists of:
* `suggest_groceries` — a keyword classifier over the lowered input string
  (lines 21-43 of `main.py`);
* the startup credential check (lines 11-13);
* the interactive loop `run_agent` (lines 77-107), which reads inputs,
  recognizes the case-insensitive sentinel "exit", dispatches non-sentinel
  inputs to the external `agent_executor.invoke`, prints the reply or a
  caught error, and appends message turns to `chat_history`.

The external dispatch (LangChain agent + remote model) is modelled as an
oracle function returning either an output string or a raised exception
(`Except String String`). Message constructors are modelled by their roles:
`HumanMessage` carries role `user`, `SystemMessage` carries role `system`,
and the unused `AIMessage` would carry role `assistant`. Python `str.lower`
is modelled on the basic-latin range, matching Lean `Char.toLower`; every
keyword and sentinel involved is basic-latin.
-/

namespace GroceryAgent

/-- Model of Python `str.lower` : lower every character. -/
def pyLower (s : String) : String :=
  String.mk (s.data.map Char.toLower)

/-- Helper for the Python `in` operator on strings: does `pat` occur as a
contiguous substring of `l`? -/
def infixAux (pat : List Char) : List Char → Bool
  | [] => pat.isEmpty
  | c :: cs => pat.isPrefixOf (c :: cs) || infixAux pat cs

/-- Model of the Python expression `pat in s` for strings. -/
def strContains (s pat : String) : Bool :=
  infixAux pat.data s.data

/-- Embedding of `suggest_groceries` (main.py lines 21-43): ordered
substring checks over the lowered preference string, first hit wins,
with a default list when nothing matches. -/
def suggest_groceries (preferences : String) : String :=
  if strContains (pyLower preferences) "vegan" then
    "Tofu, Almond milk, Broccoli, Quinoa, Spinach, Vegan cheese"
  else if strContains (pyLower preferences) "vegetarian" then
    "Eggs, Milk, Broccoli, Pasta, Spinach, Cheddar cheese"
  else if strContains (pyLower preferences) "low carb" then
    "Chicken breast, Salmon, Avocado, Broccoli, Olive oil, Eggs"
  else if strContains (pyLower preferences) "high protein" then
    "Chicken breast, Salmon, Protein powder, Greek yogurt, Lentils, Eggs"
  else
    "Bread, Milk, Eggs, Apples, Chicken, Rice"

/-- Message roles of the LangChain message classes used by `main.py`:
`HumanMessage` is `user`, `SystemMessage` is `system`, `AIMessage`
(not used by the code) is `assistant`. -/
inductive Role where
  | user
  | system
  | assistant
  deriving DecidableEq

/-- A chat message: a role together with its text content. -/
structure Msg where
  role : Role
  content : String
  deriving DecidableEq

/-- Observable state of one run of the `run_agent` loop: the mutable
`chat_history` list, the lines printed so far, and how many times the
external dispatch (`agent_executor.invoke` and the subsequent output
extraction/printing, i.e. the body of the `try` block) has been entered. -/
structure AgentState where
  chat_history : List Msg
  printed : List String
  dispatches : Nat
  deriving DecidableEq

/-- The external dispatch oracle: given the user input and the current
chat history (the arguments of `agent_executor.invoke`), either return
the extracted output string or raise an exception with a message. -/
abbrev Dispatch := String → List Msg → Except String String

/-- One iteration of the `while True` loop of `run_agent` (main.py lines
85-107), given the line read from stdin. Returns the new state and
whether the loop `break` was taken. On the sentinel, nothing is
dispatched and no turn is recorded. On a successful dispatch the reply
is printed and the code appends `HumanMessage(content=user_input)` and
`SystemMessage(content=result["output"])` to `chat_history`. On a raised
exception the error message is printed and the history is untouched. -/
def loopStep (d : Dispatch) (s : AgentState) (user_input : String) :
    AgentState × Bool :=
  if pyLower user_input = "exit" then
    ({ s with printed := s.printed ++ ["Goodbye!"] }, true)
  else
    match d user_input s.chat_history with
    | Except.ok out =>
      ({ chat_history :=
           s.chat_history ++ [⟨Role.user, user_input⟩, ⟨Role.system, out⟩],
         printed := s.printed ++ ["Assistant: " ++ out],
         dispatches := s.dispatches + 1 }, false)
    | Except.error e =>
      ({ s with printed := s.printed ++ ["An error occurred: " ++ e],
                dispatches := s.dispatches + 1 }, false)

/-- The `while True` loop of `run_agent`, driven by a finite script of
stdin lines. Returns the final state and `some 0` (the implicit process
exit code) when the loop terminated via the sentinel `break`, or `none`
when the script was exhausted with the loop still awaiting input. -/
def loopRun (d : Dispatch) (s : AgentState) : List String → AgentState × Option Nat
  | [] => (s, none)
  | i :: rest =>
    let r := loopStep d s i
    if r.2 then (r.1, some 0) else loopRun d r.1 rest

/-- The three welcome lines printed by `run_agent` before the loop. -/
def welcome : List String :=
  ["Welcome to the Grocery Shopping Assistant!",
   "I can help you create a grocery list based on your preferences.",
   "Type \x27exit\x27 to end the conversation."]

/-- Embedding of `run_agent` (main.py lines 77-107): print the welcome,
start with an empty `chat_history`, and run the loop on the stdin script. -/
def run_agent (d : Dispatch) (inputs : List String) : AgentState × Option Nat :=
  loopRun d { chat_history := [], printed := welcome, dispatches := 0 } inputs

/-- The message of the `ValueError` raised at startup (main.py line 13). -/
def apiKeyError : String :=
  "OpenAI API key not found. Please set the OPENAI_API_KEY environment variable."

/-- Embedding of the whole program (main.py lines 11-13 and 109-110): read
the credential from the environment; if it is absent or falsy (the empty
string), raise the fatal `ValueError` before any interactive behavior;
otherwise run the interactive loop. -/
def program (env : String → Option String) (d : Dispatch)
    (inputs : List String) : Except String (AgentState × Option Nat) :=
  match env "OPENAI_API_KEY" with
  | none => Except.error apiKeyError
  | some k =>
    if k = "" then Except.error apiKeyError
    else Except.ok (run_agent d inputs)

/-- A valid code point round-trips through `Char.ofNat`. -/
theorem toNat_ofNat_of_isValidChar {n : Nat} (h : n.isValidChar) :
    (Char.ofNat n).toNat = n := by
  rw [Char.ofNat, dif_pos h]
  simp [Char.ofNatAux, Char.toNat, UInt32.toNat]

/-- A character outside the basic-latin uppercase range is fixed by
`Char.toLower`. -/
theorem toLower_eq_of_not_upper (c : Char)
    (h : ¬(c.toNat ≥ 65 ∧ c.toNat ≤ 90)) : c.toLower = c := by
  show (if c.toNat ≥ 65 ∧ c.toNat ≤ 90 then Char.ofNat (c.toNat + 32) else c) = c
  rw [if_neg h]

/-- Lowering a character twice is the same as lowering it once. -/
theorem toLower_idem (c : Char) : c.toLower.toLower = c.toLower := by
  by_cases h : c.toNat ≥ 65 ∧ c.toNat ≤ 90
  · have h1 : c.toLower = Char.ofNat (c.toNat + 32) := by
      show (if c.toNat ≥ 65 ∧ c.toNat ≤ 90 then Char.ofNat (c.toNat + 32) else c) = _
      rw [if_pos h]
    apply toLower_eq_of_not_upper
    rw [h1, toNat_ofNat_of_isValidChar (Or.inl (by omega))]
    omega
  · simp only [toLower_eq_of_not_upper c h]

/-- Lowering a string twice is the same as lowering it once. -/
theorem pyLower_idem (s : String) : pyLower (pyLower s) = pyLower s := by
  apply congrArg String.mk
  show (s.data.map Char.toLower).map Char.toLower = s.data.map Char.toLower
  rw [List.map_map]
  apply List.map_congr_left
  intro c _
  exact toLower_idem c

/-- Claim C1 counterexample: the input "vegan vegetarian low carb" contains
both "vegetarian" and "low carb", yet `suggest_groceries` does not return
the vegetarian list (the earlier "vegan" branch wins), refuting the claim
that every input containing both "vegetarian" and "low carb" returns the
vegetarian list. -/
theorem C1_counterexample :
    strContains (pyLower "vegan vegetarian low carb") "vegetarian" = true ∧
    strContains (pyLower "vegan vegetarian low carb") "low carb" = true ∧
    suggest_groceries "vegan vegetarian low carb" ≠
      "Eggs, Milk, Broccoli, Pasta, Spinach, Cheddar cheese" := by
  refine ⟨by decide, by decide, by decide⟩

/-- Claim C1 (amended): `suggest_groceries` checks the keywords in the
exact priority order vegan, vegetarian, low carb, high protein, and the
first match wins: any input containing "vegan" (hence any input containing
both "vegan" and "high protein") returns the vegan list, and an input
containing both "vegetarian" and "low carb" but not "vegan" returns the
vegetarian list. -/
theorem C1_priority_order (s : String) :
    (strContains (pyLower s) "vegan" = true →
      suggest_groceries s =
        "Tofu, Almond milk, Broccoli, Quinoa, Spinach, Vegan cheese") ∧
    (strContains (pyLower s) "vegan" = false →
      strContains (pyLower s) "vegetarian" = true →
      suggest_groceries s =
        "Eggs, Milk, Broccoli, Pasta, Spinach, Cheddar cheese") ∧
    (strContains (pyLower s) "vegan" = false →
      strContains (pyLower s) "vegetarian" = false →
      strContains (pyLower s) "low carb" = true →
      suggest_groceries s =
        "Chicken breast, Salmon, Avocado, Broccoli, Olive oil, Eggs") ∧
    (strContains (pyLower s) "vegan" = false →
      strContains (pyLower s) "vegetarian" = false →
      strContains (pyLower s) "low carb" = false →
      strContains (pyLower s) "high protein" = true →
      suggest_groceries s =
        "Chicken breast, Salmon, Protein powder, Greek yogurt, Lentils, Eggs") := by
  refine ⟨fun h1 => ?_, fun h1 h2 => ?_, fun h1 h2 h3 => ?_, fun h1 h2 h3 h4 => ?_⟩ <;>
    simp [suggest_groceries, h1]
  · simp [h2]
  · simp [h2, h3]
  · simp [h2, h3, h4]

/-- Claim C1 witness: the amended priority-order theorem applied to an
input containing both "vegan" and "high protein" (the vegan list wins) and
to an input containing both "vegetarian" and "low carb" but not "vegan"
(the vegetarian list wins). -/
theorem C1_priority_order_witness :
    suggest_groceries "vegan and high protein" =
      "Tofu, Almond milk, Broccoli, Quinoa, Spinach, Vegan cheese" ∧
    suggest_groceries "vegetarian, low carb" =
      "Eggs, Milk, Broccoli, Pasta, Spinach, Cheddar cheese" :=
  ⟨(C1_priority_order "vegan and high protein").1 (by decide),
   (C1_priority_order "vegetarian, low carb").2.1 (by decide) (by decide)⟩

/-- Claim C2: `suggest_groceries` is total (it is a Lean function on all of
`String`), its result is always one of the five fixed comma-separated
lists, and on any input containing none of the four keywords
(case-insensitively, i.e. not even after lowering) it returns the default
list. -/
theorem C2_total_five_outputs_default (s : String) :
    (suggest_groceries s =
        "Tofu, Almond milk, Broccoli, Quinoa, Spinach, Vegan cheese" ∨
      suggest_groceries s =
        "Eggs, Milk, Broccoli, Pasta, Spinach, Cheddar cheese" ∨
      suggest_groceries s =
        "Chicken breast, Salmon, Avocado, Broccoli, Olive oil, Eggs" ∨
      suggest_groceries s =
        "Chicken breast, Salmon, Protein powder, Greek yogurt, Lentils, Eggs" ∨
      suggest_groceries s = "Bread, Milk, Eggs, Apples, Chicken, Rice") ∧
    (strContains (pyLower s) "vegan" = false →
      strContains (pyLower s) "vegetarian" = false →
      strContains (pyLower s) "low carb" = false →
      strContains (pyLower s) "high protein" = false →
      suggest_groceries s = "Bread, Milk, Eggs, Apples, Chicken, Rice") := by
  constructor
  · unfold suggest_groceries
    split
    · exact Or.inl rfl
    split
    · exact Or.inr (Or.inl rfl)
    split
    · exact Or.inr (Or.inr (Or.inl rfl))
    split
    · exact Or.inr (Or.inr (Or.inr (Or.inl rfl)))
    · exact Or.inr (Or.inr (Or.inr (Or.inr rfl)))
  · intro h1 h2 h3 h4
    simp [suggest_groceries, h1, h2, h3, h4]

/-- Claim C2 witness: the theorem applied to the keyword-free input
"just the usual" yields the default list. -/
theorem C2_total_five_outputs_default_witness :
    suggest_groceries "just the usual" =
      "Bread, Milk, Eggs, Apples, Chicken, Rice" :=
  (C2_total_five_outputs_default "just the usual").2
    (by decide) (by decide) (by decide) (by decide)

/-- Claim C6: matching is case-insensitive and the only normalization is
lower-casing: `suggest_groceries` gives the same answer on a string and on
its lowered form, and any input containing "vegan" in any letter case
(i.e. whose lowered form contains "vegan") returns the vegan list. -/
theorem C6_case_insensitive (s : String) :
    suggest_groceries s = suggest_groceries (pyLower s) ∧
    (strContains (pyLower s) "vegan" = true →
      suggest_groceries s =
        "Tofu, Almond milk, Broccoli, Quinoa, Spinach, Vegan cheese") := by
  constructor
  · unfold suggest_groceries
    rw [pyLower_idem]
  · intro h
    simp [suggest_groceries, h]

/-- Claim C6 witness: the theorem applied to the mixed-case input
"VeGaN diet": it classifies the same as its lowered form and returns the
vegan list. -/
theorem C6_case_insensitive_witness :
    suggest_groceries "VeGaN diet" = suggest_groceries (pyLower "VeGaN diet") ∧
    suggest_groceries "VeGaN diet" =
      "Tofu, Almond milk, Broccoli, Quinoa, Spinach, Vegan cheese" :=
  ⟨(C6_case_insensitive "VeGaN diet").1,
   (C6_case_insensitive "VeGaN diet").2 (by decide)⟩

/-- Claim C7: the classifier yields the three example outputs of the spec:
the vegan list for "I\x27m vegan and need high protein", the low-carb list
for "low carb please", and the default list for "just the usual". -/
theorem C7_spec_examples :
    suggest_groceries "I\x27m vegan and need high protein" =
      "Tofu, Almond milk, Broccoli, Quinoa, Spinach, Vegan cheese" ∧
    suggest_groceries "low carb please" =
      "Chicken breast, Salmon, Avocado, Broccoli, Olive oil, Eggs" ∧
    suggest_groceries "just the usual" =
      "Bread, Milk, Eggs, Apples, Chicken, Rice" := by
  refine ⟨by decide, by decide, by decide⟩

/-- Claim C9: `suggest_groceries` is pure and deterministic: it is a plain
function of its input string, so equal inputs give equal outputs; moreover
its output depends only on which of the four keywords occur in the lowered
input, a noninterference property showing no other state influences the
result. -/
theorem C9_pure_deterministic (s t : String) :
    (s = t → suggest_groceries s = suggest_groceries t) ∧
    (strContains (pyLower s) "vegan" = strContains (pyLower t) "vegan" →
      strContains (pyLower s) "vegetarian" = strContains (pyLower t) "vegetarian" →
      strContains (pyLower s) "low carb" = strContains (pyLower t) "low carb" →
      strContains (pyLower s) "high protein" = strContains (pyLower t) "high protein" →
      suggest_groceries s = suggest_groceries t) := by
  constructor
  · intro h
    rw [h]
  · intro h1 h2 h3 h4
    unfold suggest_groceries
    rw [h1, h2, h3, h4]

/-- Claim C9 witness: the theorem applied to the equal inputs "anything"
and to the distinct inputs "vegan A" and "a vegan", which agree on all
four keyword flags and hence classify identically. -/
theorem C9_pure_deterministic_witness :
    suggest_groceries "anything" = suggest_groceries "anything" ∧
    suggest_groceries "vegan A" = suggest_groceries "a vegan" :=
  ⟨(C9_pure_deterministic "anything" "anything").1 rfl,
   (C9_pure_deterministic "vegan A" "a vegan").2
     (by decide) (by decide) (by decide) (by decide)⟩

/-- Claim C3, code evaluated at the failing input: after one successful
exchange (input "hi", dispatch output "hello") the history is the two
turns in order, the first with role `user`, but the second turn is
recorded by `SystemMessage(content=result["output"])` with role `system`,
not `assistant` — against the claim that every role is user or assistant
with user/assistant alternation. -/
theorem C3_assistant_turn_has_system_role :
    (run_agent (fun _ _ => Except.ok "hello") ["hi"]).1.chat_history =
      [⟨Role.user, "hi"⟩, ⟨Role.system, "hello"⟩] ∧
    Role.system ≠ Role.assistant := by
  refine ⟨by decide, by decide⟩

/-- Claim C4: if the dispatch (the body of the `try` block: invoke,
output extraction or printing) raises during a non-sentinel iteration,
the exception is caught, the error message is printed, the chat history
is left exactly unchanged, the dispatch counter records the attempt, and
the loop continues (no `break`). -/
theorem C4_dispatch_error_caught (d : Dispatch) (s : AgentState)
    (input e : String) (hne : pyLower input ≠ "exit")
    (herr : d input s.chat_history = Except.error e) :
    loopStep d s input =
      ({ s with printed := s.printed ++ ["An error occurred: " ++ e],
                dispatches := s.dispatches + 1 }, false) := by
  unfold loopStep
  rw [if_neg hne, herr]

/-- Claim C4 witness: the theorem applied to a dispatcher that always
raises "boom" on the input "hi" from the empty starting state. -/
theorem C4_dispatch_error_caught_witness :
    loopStep (fun _ _ => Except.error "boom")
      { chat_history := [], printed := [], dispatches := 0 } "hi" =
      ({ chat_history := [], printed := ["An error occurred: boom"],
         dispatches := 1 }, false) :=
  C4_dispatch_error_caught (fun _ _ => Except.error "boom")
    { chat_history := [], printed := [], dispatches := 0 } "hi" "boom"
    (by decide) rfl

/-- Claim C5: when the line read lowers to the sentinel "exit" (so "exit"
in any letter case), the loop prints the goodbye line and terminates with
the implicit process exit code 0; the chat history and the dispatch
counter are unchanged, so no turn is appended and the external call is
not dispatched. -/
theorem C5_exit_sentinel_terminates (d : Dispatch) (s : AgentState)
    (input : String) (rest : List String) (h : pyLower input = "exit") :
    loopRun d s (input :: rest) =
      ({ s with printed := s.printed ++ ["Goodbye!"] }, some 0) := by
  unfold loopRun loopStep
  rw [if_pos h]
  rfl

/-- Claim C5 witness: the theorem applied to the upper-case sentinel
"EXIT" typed first in a run of the whole agent, with further script lines
behind it that are never read. -/
theorem C5_exit_sentinel_terminates_witness :
    run_agent (fun _ _ => Except.ok "hello") ["EXIT", "more"] =
      ({ chat_history := [], printed := welcome ++ ["Goodbye!"],
         dispatches := 0 }, some 0) :=
  C5_exit_sentinel_terminates (fun _ _ => Except.ok "hello")
    { chat_history := [], printed := welcome, dispatches := 0 }
    "EXIT" ["more"] (by decide)

/-- Claim C8: if the credential environment variable OPENAI_API_KEY is
absent or empty at startup, the program raises the descriptive
`ValueError` and aborts before the interactive loop: the result is the
startup error, so no prompt is read and no dispatch occurs. -/
theorem C8_missing_credential_fatal (env : String → Option String)
    (d : Dispatch) (inputs : List String)
    (h : env "OPENAI_API_KEY" = none ∨ env "OPENAI_API_KEY" = some "") :
    program env d inputs = Except.error apiKeyError := by
  rcases h with h | h <;> simp [program, h]

/-- Claim C8 witness: the theorem applied to an empty environment, an
always-succeeding dispatcher and a nonempty stdin script. -/
theorem C8_missing_credential_fatal_witness :
    program (fun _ => none) (fun _ _ => Except.ok "hello") ["hi"] =
      Except.error apiKeyError :=
  C8_missing_credential_fatal (fun _ => none) (fun _ _ => Except.ok "hello")
    ["hi"] (Or.inl rfl)

/-- Claim C10: the sentinel is matched by exact equality after
lowercasing: any input whose lowered form is not exactly "exit" does not
terminate the loop and is dispatched to the external call (the dispatch
counter grows by one), and when the dispatch succeeds it is recorded as
an ordinary turn. -/
theorem C10_exit_needs_exact_match (d : Dispatch) (s : AgentState)
    (input : String) (h : pyLower input ≠ "exit") :
    (loopStep d s input).2 = false ∧
    (loopStep d s input).1.dispatches = s.dispatches + 1 ∧
    (∀ out, d input s.chat_history = Except.ok out →
      (loopStep d s input).1.chat_history =
        s.chat_history ++ [⟨Role.user, input⟩, ⟨Role.system, out⟩]) := by
  unfold loopStep
  rw [if_neg h]
  cases hd : d input s.chat_history with
  | ok out =>
    refine ⟨rfl, rfl, fun o ho => ?_⟩
    cases ho
    rfl
  | error e =>
    refine ⟨rfl, rfl, fun o ho => ?_⟩
    cases ho

/-- Claim C10 witness: the theorem applied to the three near-sentinel
inputs of the claim — " exit" (leading whitespace), "exit now" (contains
the word) and "" (empty) — each of which is dispatched as an ordinary
turn rather than terminating the loop. -/
theorem C10_exit_needs_exact_match_witness :
    ((loopStep (fun _ _ => Except.ok "r")
        { chat_history := [], printed := [], dispatches := 0 } " exit").2 = false ∧
      (loopStep (fun _ _ => Except.ok "r")
        { chat_history := [], printed := [], dispatches := 0 } " exit").1.chat_history =
        [⟨Role.user, " exit"⟩, ⟨Role.system, "r"⟩]) ∧
    (loopStep (fun _ _ => Except.ok "r")
      { chat_history := [], printed := [], dispatches := 0 } "exit now").2 = false ∧
    (loopStep (fun _ _ => Except.ok "r")
      { chat_history := [], printed := [], dispatches := 0 } "").2 = false :=
  ⟨⟨(C10_exit_needs_exact_match (fun _ _ => Except.ok "r")
        { chat_history := [], printed := [], dispatches := 0 } " exit" (by decide)).1,
    (C10_exit_needs_exact_match (fun _ _ => Except.ok "r")
        { chat_history := [], printed := [], dispatches := 0 } " exit" (by decide)).2.2
      "r" rfl⟩,
   (C10_exit_needs_exact_match (fun _ _ => Except.ok "r")
      { chat_history := [], printed := [], dispatches := 0 } "exit now" (by decide)).1,
   (C10_exit_needs_exact_match (fun _ _ => Except.ok "r")
      { chat_history := [], printed := [], dispatches := 0 } "" (by decide)).1⟩

end GroceryAgent
